import Mathlib

/-!
# Verification of the kiota HTTPX request adapter

A shallow embedding of `src/kiota_http/httpx_request_adapter.py` (class
`HttpxRequestAdapter`), together with theorems settling the specification
claims about its request-execution and response-resolution pipeline.

Modelling conventions:
* Python `str` values are Lean `String`s; where a Python string operation
  (lower-casing, splitting, the `re.search` call) has to be computed, it is
  defined over the underlying `List Char` so every definition is executable
  and kernel-reducible.
* `bytes` payloads (`response.content`) flow through the pipeline opaquely
  and are modelled as `String`.
* External collaborators (the transport, the authentication provider, the
  parse-node factory, the caller-supplied response handler) are parameters:
  the transport is a function from the attempt index to the response it
  returns, and the points where the adapter hands data to the serialization
  layer are recorded as outcome constructors carrying exactly the data that
  crosses the boundary.
* Tracing spans are pure side effects and are not modelled, with one
  exception: `start_tracing_span` reads `request_info.url_template`, which
  on a null request info raises an `AttributeError` before anything else
  runs; that failure is part of the model.
-/

namespace KiotaHttp

/-- The character constant for a semicolon. -/
def semicolon : Char := ';'

/-- The character constant for a double quote. -/
def dquote : Char := '"'

/-- The character constant for a line feed (Python `.` in a regex does not
match it). -/
def linefeed : Char := '\n'

/-- Lower-case every character of a Python string, modelling `str.lower()`
and - for the ASCII header tokens this adapter compares - `str.casefold()`
as well. -/
def pyLower (l : List Char) : List Char := l.map Char.toLower

/-- An HTTP response as the adapter observes it: `status_code`,
`headers` (an ordered name/value list, names case-insensitive as in
`httpx.Headers`) and the raw body `content`. -/
structure Response where
  status_code : Nat
  headers : List (String × String)
  content : String
deriving DecidableEq

/-- `httpx.Headers.get`: case-insensitive lookup; repeated header names are
joined with a comma and a space, a missing name yields `None`. -/
def headerGet (hs : List (String × String)) (name : String) : Option String :=
  let key := pyLower name.data
  let ms := hs.filter (fun p => pyLower p.1.data = key)
  if ms.isEmpty then none
  else some (String.intercalate ", " (ms.map Prod.snd))

/-- `Response.get_header`: convenience wrapper over `headerGet`. -/
def Response.getHeader (r : Response) (name : String) : Option String :=
  headerGet r.headers name

/-- Python truthiness of `resp.headers.get(name)`: the header must be
present with a non-empty value. -/
def headerTruthy (r : Response) (name : String) : Bool :=
  match r.getHeader name with
  | none => false
  | some v => ¬ v = ""

/-- `httpx.Response.is_success`: status lies in [200,300). -/
def isSuccess (status : Nat) : Bool :=
  decide (200 ≤ status) && decide (status < 300)

/-- Helper for the Python `str.split` model: prepend a character to the
first piece of a split result. -/
def consHead (c : Char) : List (List Char) → List (List Char)
  | [] => [[c]]
  | x :: xs => (c :: x) :: xs

/-- Python `str.split(";")` over the character list. -/
def splitSemi : List Char → List (List Char)
  | [] => [[]]
  | c :: rest =>
    if c = semicolon then [] :: splitSemi rest
    else consHead c (splitSemi rest)

/-- Python `str.split('="')` over the character list (the separator is the
two-character sequence `=` `"`), scanning left to right without overlap. -/
def splitEqQuote : List Char → List (List Char)
  | [] => [[]]
  | [c] => [[c]]
  | c :: d :: rest =>
    if c = '=' ∧ d = dquote then [] :: splitEqQuote rest
    else consHead c (splitEqQuote (d :: rest))

/-- `get_response_content_type` (source lines 111-118): read the
`content-type` header; a missing or empty header resolves to no content
type, otherwise the value is lower-cased, split on `;`, and the first
segment is the resolved type. -/
def get_response_content_type (r : Response) : Option String :=
  match r.getHeader "content-type" with
  | none => none
  | some header =>
    if header = "" then none
    else
      match splitSemi (pyLower header.data) with
      | [] => none
      | s :: _ => some (String.mk s)

/-- The content-type gate of `get_root_parse_node` (source lines
387-402): `if not response_content_type:` raises `DeserializationError` -
Python truthiness, so both a missing resolution and a resolution to the
empty string (a header such as `;x`) raise; otherwise the resolved type
keys the parse-node factory. -/
def get_root_parse_node_content_type (r : Response) : Option String :=
  match get_response_content_type r with
  | none => none
  | some ct => if ct = "" then none else some ct

/-- The message of the generic `APIError` raised by
`throw_failed_responses` when no error class is registered (the source
concatenates two literals around the status code). -/
def NO_ERROR_CLASS_MSG (status : Nat) : String :=
  "The server returned an unexpected status code and no error class is registered"
    ++ " for this code " ++ toString status

/-- What `throw_failed_responses` does, up to the boundary with the
serialization layer.

* `noop` - returned without raising (the `response.is_success` early exit);
* `genericError msg status headers` - raised the generic `APIError`;
* `deserializationError` - `get_root_parse_node` raised because no content
  type could be resolved;
* `errorMaterialize factory ct body status headers` - parsed `body` with
  the `ct`-keyed codec and handed the node to `get_object_value factory`;
  the raised error (typed, with `status`/`headers` stamped on, or the
  unexpected-type `APIError`) is determined by the external serialization
  collaborators from exactly this data. -/
inductive ThrowOutcome (α : Type) where
  | noop
  | genericError (msg : String) (status : Nat) (headers : List (String × String))
  | deserializationError
  | errorMaterialize (factory : Option α) (contentType : String) (body : String)
      (status : Nat) (headers : List (String × String))
deriving DecidableEq

/-- A caller-supplied error map: an association of status-code
discriminators (`"404"`, `"4XX"`, `"5XX"`, ...) to error factories of an
opaque type `α`. -/
abbrev ErrorMap (α : Type) := List (String × α)

/-- `throw_failed_responses` (source lines 407-486): no-op on 2xx; with an
empty error map raise the generic `APIError`; with a non-empty map raise
the generic error when the status has no exact entry and its 4XX/5XX class
entry is also missing; otherwise resolve the factory (exact key, else
`"4XX"` for [400,500), else `"5XX"` for [500,600), else `None`), parse the
body and materialize the error object. -/
def throw_failed_responses {α : Type} (resp : Response) (error_map : ErrorMap α) :
    ThrowOutcome α :=
  if isSuccess resp.status_code then .noop
  else
    let s := resp.status_code
    let sStr := toString s
    if error_map.isEmpty then .genericError (NO_ERROR_CLASS_MSG s) s resp.headers
    else
      let unregistered : Bool :=
        (error_map.lookup sStr).isNone &&
          ((decide (400 ≤ s) && decide (s < 500) && (error_map.lookup "4XX").isNone)
            || (decide (500 ≤ s) && decide (s < 600) && (error_map.lookup "5XX").isNone))
      if unregistered then .genericError (NO_ERROR_CLASS_MSG s) s resp.headers
      else
        let error_class : Option α :=
          match error_map.lookup sStr with
          | some f => some f
          | none =>
            if decide (400 ≤ s) && decide (s < 500) then error_map.lookup "4XX"
            else if decide (500 ≤ s) && decide (s < 600) then error_map.lookup "5XX"
            else none
        match get_root_parse_node_content_type resp with
        | none => .deserializationError
        | some ct => .errorMaterialize error_class ct resp.content s resp.headers

/-! ## CAE challenge parsing (`retry_cae_response_if_required`)

The source extracts the claims payload of a 401 challenge with
`re.search('claims="(.+)"', value)` followed by
`claims_match.group().split('="')[1]`.  The regex is modelled exactly:
the leftmost position where the literal `claims="` is followed by a greedy
`.+` (at least one character, `.` not matching a line feed) and a closing
quote; greediness means the match extends to the last quote available on
that line. -/

/-- The literal prefix `claims="` of the challenge regex. -/
def claimsLit : List Char := ['c', 'l', 'a', 'i', 'm', 's', '=', '"']

/-- Index of the last occurrence of a double quote in a character list. -/
def lastQuoteIdx : List Char → Option Nat
  | [] => none
  | c :: rest =>
    match lastQuoteIdx rest with
    | some i => some (i + 1)
    | none => if c = dquote then some 0 else none

/-- Try to match `claims="(.+)"` anchored at the head of the list,
returning the whole matched text (`group(0)`).  After the literal, the
greedy `.+` can cover any characters of the current line, so the match
closes at the last quote of the line provided at least one character
stands between the literal and that quote. -/
def reMatchClaimsAt (l : List Char) : Option (List Char) :=
  if claimsLit.isPrefixOf l then
    let rest := l.drop claimsLit.length
    let line := rest.takeWhile (· ≠ linefeed)
    match lastQuoteIdx line with
    | some j => if 1 ≤ j then some (claimsLit ++ line.take j ++ [dquote]) else none
    | none => none
  else none

/-- `re.search('claims="(.+)"', s)`: the match at the leftmost position
where one exists, as the whole matched text. -/
def reSearchClaims : List Char → Option (List Char)
  | [] => none
  | c :: rest =>
    match reMatchClaimsAt (c :: rest) with
    | some m => some m
    | none => reSearchClaims rest

/-- The claims value the adapter actually re-authenticates with:
`claims_match.group().split('="')[1]` (source line 540). -/
def extract_response_claims (auth_header_value : String) : Option String :=
  match reSearchClaims auth_header_value.data with
  | none => none
  | some m => some (String.mk ((splitEqQuote m).getD 1 []))

/-- `BEARER_AUTHENTICATION_SCHEME.casefold()` as a character list. -/
def bearerLit : List Char := ['b', 'e', 'a', 'r', 'e', 'r']

/-- `auth_header_value.casefold().startswith(BEARER_AUTHENTICATION_SCHEME.casefold())`. -/
def starts_with_bearer (auth_header_value : String) : Bool :=
  bearerLit.isPrefixOf (pyLower auth_header_value.data)

/-- The `RESPONSE_AUTH_HEADER` class constant. -/
def RESPONSE_AUTH_HEADER : String := "WWW-Authenticate"

/-- The `CLAIMS_KEY` class constant. -/
def CLAIMS_KEY : String := "claims"

/-- One `additional_authentication_context` dictionary handed to
`authenticate_request`. -/
abbrev AuthContext := List (String × String)

/-- Result of `get_http_response_message` (and of the
`retry_cae_response_if_required` call it tail-calls into): either the
response finally handed back to the send variant together with the ordered
list of authentication contexts used (one per dispatch attempt), or the
`ValueError("Unable to parse claims from response")` raised on an
unparsable Bearer challenge.  `outOfFuel` only arises when the bounded
model runs out of recursion budget. -/
inductive CaeOutcome where
  | ok (resp : Response) (authLog : List AuthContext)
  | parseError (authLog : List AuthContext)
  | outOfFuel
deriving DecidableEq

/-- `retry_cae_response_if_required` (source lines 524-547).  `next` is
the recursive re-entry into `get_http_response_message` with the freshly
extracted claims.  A 401 on a claims-free attempt with a truthy
`WWW-Authenticate` header is inspected: a Bearer-prefixed value either
yields claims for exactly one full re-run or raises the parse error;
every other shape returns the response unchanged. -/
def retry_cae_response_if_required (resp : Response) (claims : String)
    (log : List AuthContext) (next : String → List AuthContext → CaeOutcome) :
    CaeOutcome :=
  if resp.status_code = 401 ∧ claims = "" ∧ headerTruthy resp RESPONSE_AUTH_HEADER then
    let auth_header_value := (resp.getHeader RESPONSE_AUTH_HEADER).getD ""
    if starts_with_bearer auth_header_value then
      match reSearchClaims auth_header_value.data with
      | none => .parseError log
      | some m =>
        let response_claims := String.mk ((splitEqQuote m).getD 1 [])
        next response_claims log
    else .ok resp log
  else .ok resp log

/-- `get_http_response_message` (source lines 488-522): build the
authentication context (`{"claims": claims}` when `claims` is non-empty,
else empty), authenticate, materialize and dispatch the native request -
the transport is the oracle `transport : attempt index → response` - then
run the CAE retry check.  `fuel` bounds the recursion depth of the model;
the log records the context of every authentication performed. -/
def get_http_response_message (transport : Nat → Response) :
    Nat → String → List AuthContext → CaeOutcome
  | 0, _, _ => .outOfFuel
  | fuel + 1, claims, log =>
    let ctx : AuthContext := if claims = "" then [] else [(CLAIMS_KEY, claims)]
    let resp := transport log.length
    retry_cae_response_if_required resp claims (log ++ [ctx])
      (get_http_response_message transport fuel)

/-! ## The five send variants

`send_async`, `send_collection_async`, `send_collection_of_primitive_async`,
`send_primitive_async` and `send_no_response_content_async` share one
skeleton (start the parent span, null-check the request info, dispatch with
CAE retry, response-handler short-circuit, failure resolution) and differ
only in the deserialization tail; the skeleton is embedded once, indexed by
the variant. -/

/-- Which of the five send variants is running (`send_primitive_async` and
`send_collection_of_primitive_async` carry the requested primitive kind,
the `response_type` string of the source). -/
inductive Variant where
  | object
  | collection
  | collectionOfPrimitive (kind : String)
  | primitive (kind : String)
  | noContent
deriving DecidableEq

/-- The deserialization call a successful send hands to the parse node:
`get_object_value`, `get_collection_of_object_values`,
`get_collection_of_primitive_values kind`, or the per-kind primitive
getter chain of `send_primitive_async`. -/
inductive DeserializeKind where
  | objectValue
  | collectionOfObjects
  | collectionOfPrimitives (kind : String)
  | primitiveFromNode (kind : String)
deriving DecidableEq

/-- Result of one send variant, with the boundary to the external
collaborators made explicit.

* `attributeError` - `start_tracing_span` read `url_template` off a null
  request info (`AttributeError`), before the null check could run;
* `requestNullError` - the `REQUEST_IS_NULL` `RequestError` of the
  explicit null check (unreachable: a real `RequestInformation` instance
  is always truthy);
* `claimsParseError` - the CAE retry raised
  `ValueError("Unable to parse claims from response")`;
* `failed t` - `throw_failed_responses` raised, with `t` the outcome;
* `handled v` - the per-request response handler was invoked and its
  result `v` returned verbatim;
* `noneResult` - the variant returned `None`;
* `rawBytes body` - `send_primitive_async` with `response_type "bytes"`
  returned the raw body;
* `deserialize k ct body` - the success path parsed `body` with the
  `ct`-keyed codec and ran the deserialization call `k` on the root node
  (its value, produced by the external serialization layer, is the
  variant's return value);
* `deserializationError` - no content type could be resolved on the
  success path. -/
inductive SendOutcome (α γ : Type) where
  | attributeError
  | requestNullError
  | claimsParseError
  | outOfFuel
  | failed (t : ThrowOutcome α)
  | handled (v : γ)
  | noneResult
  | rawBytes (body : String)
  | deserialize (k : DeserializeKind) (contentType : String) (body : String)
  | deserializationError
deriving DecidableEq

/-- The slice of a `RequestInformation` the embedded pipeline reads: the
`url_template` used for the span name and the response handler carried in
the request options (`ResponseHandlerOption`), a function given the raw
response and the error map. -/
structure RequestInfo (α γ : Type) where
  url_template : Option String
  response_handler : Option (Response → ErrorMap α → γ)

/-- `get_response_handler` (source lines 549-553): fetch the
`ResponseHandlerOption` from the request options and return its handler. -/
def get_response_handler {α γ : Type} (request_info : RequestInfo α γ) :
    Option (Response → ErrorMap α → γ) :=
  request_info.response_handler

/-- `_should_return_none` (source lines 404-405). -/
def should_return_none (resp : Response) : Bool :=
  resp.status_code = 204

/-- `start_tracing_span` (source lines 120-135) as far as control flow is
concerned: it reads `request_info.url_template`, so a null request info
raises `AttributeError` here, before the variant's own null check. -/
def start_tracing_span {α γ : Type} (request_info : Option (RequestInfo α γ)) :
    Except Unit Unit :=
  match request_info with
  | none => .error ()
  | some _ => .ok ()

/-- Python truthiness of the `request_info` argument:
`RequestInformation` defines neither `__bool__` nor `__len__`, so every
instance is truthy and only `None` is falsy. -/
def pyTruthyRequestInfo {α γ : Type} (request_info : Option (RequestInfo α γ)) : Bool :=
  request_info.isSome

/-- The deserialization tail in which the five variants differ, run after
failure resolution returned without raising.  Every variant except
`send_no_response_content_async` first short-circuits a 204 to `None`;
`send_primitive_async` additionally returns the raw body before any
parsing when the requested kind is `"bytes"`. -/
def variant_tail {α γ : Type} (v : Variant) (resp : Response) : SendOutcome α γ :=
  match v with
  | .noContent => .noneResult
  | .object =>
    if should_return_none resp then .noneResult
    else
      match get_root_parse_node_content_type resp with
      | none => .deserializationError
      | some ct => .deserialize .objectValue ct resp.content
  | .collection =>
    if should_return_none resp then .noneResult
    else
      match get_root_parse_node_content_type resp with
      | none => .deserializationError
      | some ct => .deserialize .collectionOfObjects ct resp.content
  | .collectionOfPrimitive kind =>
    if should_return_none resp then .noneResult
    else
      match get_root_parse_node_content_type resp with
      | none => .deserializationError
      | some ct => .deserialize (.collectionOfPrimitives kind) ct resp.content
  | .primitive kind =>
    if should_return_none resp then .noneResult
    else if kind = "bytes" then .rawBytes resp.content
    else
      match get_root_parse_node_content_type resp with
      | none => .deserializationError
      | some ct => .deserialize (.primitiveFromNode kind) ct resp.content

/-- The shared skeleton of the five send variants (source lines 143-367):
parent span (whose creation already dereferences the request info), the
`if not request_info` null check, `get_http_response_message` with the CAE
retry, the response-handler short-circuit, `throw_failed_responses`, then
the variant's deserialization tail. -/
def send_variant {α γ : Type} (v : Variant) (transport : Nat → Response) (fuel : Nat)
    (request_info : Option (RequestInfo α γ)) (error_map : ErrorMap α) :
    SendOutcome α γ :=
  match start_tracing_span request_info with
  | .error _ => .attributeError
  | .ok _ =>
    if pyTruthyRequestInfo request_info = false then .requestNullError
    else
      match request_info with
      | none => .requestNullError
      | some ri =>
        match get_http_response_message transport fuel "" [] with
        | .outOfFuel => .outOfFuel
        | .parseError _ => .claimsParseError
        | .ok resp _ =>
          match get_response_handler ri with
          | some handler => .handled (handler resp error_map)
          | none =>
            match throw_failed_responses resp error_map with
            | .noop => variant_tail v resp
            | t => .failed t

/-- `send_async` is the object variant of the shared skeleton. -/
def send_async {α γ : Type} (transport : Nat → Response) (fuel : Nat)
    (request_info : Option (RequestInfo α γ)) (error_map : ErrorMap α) :
    SendOutcome α γ :=
  send_variant .object transport fuel request_info error_map

section Sanity

example : get_response_content_type
    ⟨200, [("Content-Type", "application/json; odata.metadata=minimal")], ""⟩
    = some "application/json" := by decide

example : get_response_content_type ⟨200, [], "x"⟩ = none := by decide

example : throw_failed_responses ⟨204, [("X", "y")], ""⟩ ([("204", 7)] : ErrorMap Nat)
    = .noop := by decide

example : throw_failed_responses ⟨404, [], ""⟩ ([] : ErrorMap Nat)
    = .genericError (NO_ERROR_CLASS_MSG 404) 404 [] := by decide

example : throw_failed_responses ⟨404, [("Content-Type", "application/json")], "b"⟩
    ([("404", 1), ("4XX", 2)] : ErrorMap Nat)
    = .errorMaterialize (some 1) "application/json" "b" 404 [("Content-Type", "application/json")] := by
  decide

example : throw_failed_responses ⟨403, [("Content-Type", "application/json")], "b"⟩
    ([("4XX", 2)] : ErrorMap Nat)
    = .errorMaterialize (some 2) "application/json" "b" 403 [("Content-Type", "application/json")] := by
  decide

example : throw_failed_responses ⟨302, [("Content-Type", "application/json")], "b"⟩
    ([("404", 1)] : ErrorMap Nat)
    = .errorMaterialize none "application/json" "b" 302 [("Content-Type", "application/json")] := by
  decide

example : throw_failed_responses ⟨404, [("Content-Type", "application/json")], "b"⟩
    ([("5XX", 9)] : ErrorMap Nat)
    = .genericError (NO_ERROR_CLASS_MSG 404) 404 [("Content-Type", "application/json")] := by
  decide

-- a header like `;x` resolves to the empty string, which is falsy for
-- get_root_parse_node: DeserializationError, not materialization
example : get_response_content_type ⟨302, [("Content-Type", ";x")], "b"⟩ = some "" := by
  decide

example : get_root_parse_node_content_type ⟨302, [("Content-Type", ";x")], "b"⟩ = none := by
  decide

example : throw_failed_responses ⟨302, [("Content-Type", ";x")], "b"⟩
    ([("404", 1)] : ErrorMap Nat) = .deserializationError := by decide

example : send_async (γ := Nat) (fun _ => ⟨200, [("Content-Type", ";x")], "b"⟩) 5
    (some ⟨none, none⟩) ([] : ErrorMap Nat) = .deserializationError := by decide

-- the re-split keeps the closing quote of a simple claims value
example : extract_response_claims "Bearer claims=\"abc\"" = some "abc\"" := by decide

-- a base64 claims value ending in `=` instead loses that final `=`
example : extract_response_claims "Bearer realm=\"x\", claims=\"eyJ0In0=\""
    = some "eyJ0In0" := by decide

-- no claims component at all: the regex finds nothing
example : extract_response_claims "Bearer realm=\"x\"" = none := by decide

-- greediness: the match runs to the last quote of the line
example : extract_response_claims "Bearer claims=\"abc\", realm=\"x\""
    = some "abc\", realm" := by decide

-- a 401 Bearer challenge is retried once: second attempt carries the
-- extracted claims and its response is returned even though it is again 401
example :
    get_http_response_message
      (fun i => if i = 0 then ⟨401, [("WWW-Authenticate", "Bearer claims=\"abc\"")], ""⟩
                else ⟨401, [("WWW-Authenticate", "Bearer claims=\"abc\"")], "again"⟩)
      5 "" []
    = .ok ⟨401, [("WWW-Authenticate", "Bearer claims=\"abc\"")], "again"⟩
        [[], [("claims", "abc\"")]] := by decide

-- a non-Bearer scheme on a 401 is passed through silently
example :
    get_http_response_message
      (fun _ => ⟨401, [("WWW-Authenticate", "Basic realm=\"x\"")], ""⟩) 5 "" []
    = .ok ⟨401, [("WWW-Authenticate", "Basic realm=\"x\"")], ""⟩ [[]] := by decide

-- a Bearer header with no claims component raises the parse error
example :
    get_http_response_message
      (fun _ => ⟨401, [("WWW-Authenticate", "Bearer realm=\"x\"")], ""⟩) 5 "" []
    = .parseError [[]] := by decide

-- a null request info dies in start_tracing_span, not in the null check
example : send_async (γ := Nat) (fun _ => ⟨200, [], ""⟩) 5 none ([] : ErrorMap Nat)
    = .attributeError := by decide

-- 204 short-circuits to None even with a matching error map and a body
example : send_async (γ := Nat)
    (fun _ => ⟨204, [("Content-Type", "application/json")], "stray"⟩) 5
    (some ⟨some "{+baseurl}/x", none⟩) ([("204", 3), ("2XX", 4)] : ErrorMap Nat)
    = .noneResult := by decide

-- a response handler's result is returned verbatim, even on a 500
example : send_async
    (fun _ => ⟨500, [], "boom"⟩) 5
    (some ⟨some "{+baseurl}/x", some (fun r _ => r.status_code + 1)⟩)
    ([("5XX", 9)] : ErrorMap Nat)
    = .handled 501 := by decide

-- send_primitive_async with kind "bytes" returns the raw body unparsed
example : send_variant (γ := Nat) (.primitive "bytes")
    (fun _ => ⟨200, [], "rawdata"⟩) 5
    (some ⟨none, none⟩) ([] : ErrorMap Nat)
    = .rawBytes "rawdata" := by decide

end Sanity

/-! ## Helper lemmas -/

/-- A status outside [200,300) is not a success. -/
theorem isSuccess_false {s : Nat} (h : ¬ (200 ≤ s ∧ s < 300)) : isSuccess s = false := by
  simp only [isSuccess, Bool.and_eq_false_iff, decide_eq_false_iff_not]
  omega

/-- A status inside [200,300) is a success. -/
theorem isSuccess_true {s : Nat} (h1 : 200 ≤ s) (h2 : s < 300) : isSuccess s = true := by
  simp only [isSuccess, Bool.and_eq_true, decide_eq_true_eq]
  exact ⟨h1, h2⟩

/-- A status outside [a,b) falsifies the corresponding range test. -/
theorem range_test_false {a b s : Nat} (h : ¬ (a ≤ s ∧ s < b)) :
    (decide (a ≤ s) && decide (s < b)) = false := by
  simp only [Bool.and_eq_false_iff, decide_eq_false_iff_not]
  omega

/-- A status inside [a,b) validates the corresponding range test. -/
theorem range_test_true {a b s : Nat} (h1 : a ≤ s) (h2 : s < b) :
    (decide (a ≤ s) && decide (s < b)) = true := by
  simp only [Bool.and_eq_true, decide_eq_true_eq]
  exact ⟨h1, h2⟩

/-- A list with a successful lookup is not empty. -/
theorem isEmpty_false_of_lookup_some {α : Type} {error_map : ErrorMap α} {k : String}
    {f : α} (h : error_map.lookup k = some f) : error_map.isEmpty = false := by
  cases error_map with
  | nil => simp [List.lookup] at h
  | cons a l => rfl

/-- A non-empty resolved content type passes `get_root_parse_node`'s
truthiness gate unchanged. -/
theorem parse_gate_of_resolved {r : Response} {ct : String}
    (hct : get_response_content_type r = some ct) (hctne : ct ≠ "") :
    get_root_parse_node_content_type r = some ct := by
  simp [get_root_parse_node_content_type, hct, hctne]

/-- Failure-resolution branch: an exact status entry wins and the body is
materialized with it (the content type must resolve non-empty, or
`get_root_parse_node` raises before materialization). -/
theorem throw_exact_entry {α : Type} {resp : Response} {error_map : ErrorMap α}
    {f : α} {ct : String}
    (hfail : ¬ (200 ≤ resp.status_code ∧ resp.status_code < 300))
    (hexact : error_map.lookup (toString resp.status_code) = some f)
    (hct : get_response_content_type resp = some ct) (hctne : ct ≠ "") :
    throw_failed_responses resp error_map
      = .errorMaterialize (some f) ct resp.content resp.status_code resp.headers := by
  simp only [throw_failed_responses, isSuccess_false (s := resp.status_code) hfail,
    isEmpty_false_of_lookup_some hexact, hexact, parse_gate_of_resolved hct hctne,
    Option.isNone_some, Bool.false_and, Bool.false_eq_true, if_false, ite_false]

/-- Failure-resolution branch: no exact entry, status in [400,500), the
`"4XX"` wildcard wins. -/
theorem throw_4xx_entry {α : Type} {resp : Response} {error_map : ErrorMap α}
    {f : α} {ct : String}
    (hexact : error_map.lookup (toString resp.status_code) = none)
    (h1 : 400 ≤ resp.status_code) (h2 : resp.status_code < 500)
    (h4 : error_map.lookup "4XX" = some f)
    (hct : get_response_content_type resp = some ct) (hctne : ct ≠ "") :
    throw_failed_responses resp error_map
      = .errorMaterialize (some f) ct resp.content resp.status_code resp.headers := by
  have d1 : decide (400 ≤ resp.status_code) = true := decide_eq_true h1
  have d2 : decide (resp.status_code < 500) = true := decide_eq_true h2
  have d3 : decide (500 ≤ resp.status_code) = false := decide_eq_false (by omega)
  simp only [throw_failed_responses, isSuccess_false (s := resp.status_code) (by omega),
    isEmpty_false_of_lookup_some h4, hexact, h4, parse_gate_of_resolved hct hctne,
    Option.isNone_some,
    Option.isNone_none, d1, d2, d3,
    Bool.true_and, Bool.false_and, Bool.and_false, Bool.and_true, Bool.and_self,
    Bool.false_or, Bool.or_false, Bool.false_eq_true, if_false, ite_false, if_true, ite_true]

/-- Failure-resolution branch: no exact entry, status in [500,600), the
`"5XX"` wildcard wins. -/
theorem throw_5xx_entry {α : Type} {resp : Response} {error_map : ErrorMap α}
    {f : α} {ct : String}
    (hexact : error_map.lookup (toString resp.status_code) = none)
    (h1 : 500 ≤ resp.status_code) (h2 : resp.status_code < 600)
    (h5 : error_map.lookup "5XX" = some f)
    (hct : get_response_content_type resp = some ct) (hctne : ct ≠ "") :
    throw_failed_responses resp error_map
      = .errorMaterialize (some f) ct resp.content resp.status_code resp.headers := by
  have d1 : decide (500 ≤ resp.status_code) = true := decide_eq_true h1
  have d2 : decide (resp.status_code < 600) = true := decide_eq_true h2
  have d3 : decide (400 ≤ resp.status_code) = true := decide_eq_true (by omega)
  have d4 : decide (resp.status_code < 500) = false := decide_eq_false (by omega)
  simp only [throw_failed_responses, isSuccess_false (s := resp.status_code) (by omega),
    isEmpty_false_of_lookup_some h5, hexact, h5, parse_gate_of_resolved hct hctne,
    Option.isNone_some,
    Option.isNone_none, d1, d2, d3, d4,
    Bool.true_and, Bool.false_and, Bool.and_false, Bool.and_true, Bool.and_self,
    Bool.false_or, Bool.or_false, Bool.false_eq_true, if_false, ite_false, if_true, ite_true]

/-- Failure-resolution branch: status in [400,500) with neither an exact
entry nor a `"4XX"` wildcard raises the generic error (the empty map runs
through its own earlier raise with the same message). -/
theorem throw_generic_4xx {α : Type} {resp : Response} {error_map : ErrorMap α}
    (hexact : error_map.lookup (toString resp.status_code) = none)
    (h1 : 400 ≤ resp.status_code) (h2 : resp.status_code < 500)
    (h4 : error_map.lookup "4XX" = none) :
    throw_failed_responses resp error_map
      = .genericError (NO_ERROR_CLASS_MSG resp.status_code) resp.status_code resp.headers := by
  have d1 : decide (400 ≤ resp.status_code) = true := decide_eq_true h1
  have d2 : decide (resp.status_code < 500) = true := decide_eq_true h2
  cases hemp : error_map.isEmpty with
  | true =>
    simp only [throw_failed_responses, isSuccess_false (s := resp.status_code) (by omega),
      hemp, if_true, ite_true, Bool.false_eq_true, if_false, ite_false]
  | false =>
    simp only [throw_failed_responses, isSuccess_false (s := resp.status_code) (by omega),
      hemp, hexact, h4, Option.isNone_none, d1, d2,
      Bool.true_and, Bool.and_true, Bool.and_self, Bool.true_or, Bool.or_true,
      Bool.false_eq_true, if_false, ite_false, if_true, ite_true]

/-- Failure-resolution branch: status in [500,600) with neither an exact
entry nor a `"5XX"` wildcard raises the generic error. -/
theorem throw_generic_5xx {α : Type} {resp : Response} {error_map : ErrorMap α}
    (hexact : error_map.lookup (toString resp.status_code) = none)
    (h1 : 500 ≤ resp.status_code) (h2 : resp.status_code < 600)
    (h5 : error_map.lookup "5XX" = none) :
    throw_failed_responses resp error_map
      = .genericError (NO_ERROR_CLASS_MSG resp.status_code) resp.status_code resp.headers := by
  have d1 : decide (500 ≤ resp.status_code) = true := decide_eq_true h1
  have d2 : decide (resp.status_code < 600) = true := decide_eq_true h2
  have d3 : decide (resp.status_code < 500) = false := decide_eq_false (by omega)
  cases hemp : error_map.isEmpty with
  | true =>
    simp only [throw_failed_responses, isSuccess_false (s := resp.status_code) (by omega),
      hemp, if_true, ite_true, Bool.false_eq_true, if_false, ite_false]
  | false =>
    simp only [throw_failed_responses, isSuccess_false (s := resp.status_code) (by omega),
      hemp, hexact, h5, Option.isNone_none, d1, d2, d3,
      Bool.true_and, Bool.and_true, Bool.and_false, Bool.false_and, Bool.and_self,
      Bool.false_or, Bool.true_or, Bool.or_true, Bool.or_false,
      Bool.false_eq_true, if_false, ite_false, if_true, ite_true]

/-- Failure-resolution branch: a failed status outside [400,600) with a
non-empty map and no exact entry resolves no factory and still goes to
materialization with `none`. -/
theorem throw_none_factory {α : Type} {resp : Response} {error_map : ErrorMap α} {ct : String}
    (hfail : ¬ (200 ≤ resp.status_code ∧ resp.status_code < 300))
    (h4 : ¬ (400 ≤ resp.status_code ∧ resp.status_code < 500))
    (h5 : ¬ (500 ≤ resp.status_code ∧ resp.status_code < 600))
    (hne : error_map ≠ [])
    (hexact : error_map.lookup (toString resp.status_code) = none)
    (hct : get_response_content_type resp = some ct) (hctne : ct ≠ "") :
    throw_failed_responses resp error_map
      = .errorMaterialize none ct resp.content resp.status_code resp.headers := by
  have hemp : error_map.isEmpty = false := by
    cases error_map with
    | nil => exact absurd rfl hne
    | cons a l => rfl
  have d4 : (decide (400 ≤ resp.status_code) && decide (resp.status_code < 500)) = false :=
    range_test_false h4
  have d5 : (decide (500 ≤ resp.status_code) && decide (resp.status_code < 600)) = false :=
    range_test_false h5
  by_cases c4 : 400 ≤ resp.status_code
  · have e1 : decide (400 ≤ resp.status_code) = true := decide_eq_true c4
    have e2 : decide (resp.status_code < 500) = false := decide_eq_false (by omega)
    have e3 : decide (500 ≤ resp.status_code) = false ∨
        decide (resp.status_code < 600) = false := by
      by_cases c5 : 500 ≤ resp.status_code
      · exact Or.inr (decide_eq_false (by omega))
      · exact Or.inl (decide_eq_false c5)
    rcases e3 with e3 | e3 <;>
      simp only [throw_failed_responses, isSuccess_false (s := resp.status_code) hfail,
        hemp, hexact, parse_gate_of_resolved hct hctne, Option.isNone_none, e1, e2, e3,
        Bool.true_and, Bool.false_and, Bool.and_false, Bool.and_true, Bool.and_self,
        Bool.false_or, Bool.or_false, Bool.or_self,
        Bool.false_eq_true, if_false, ite_false, if_true, ite_true]
  · have e1 : decide (400 ≤ resp.status_code) = false := decide_eq_false c4
    have e3 : decide (500 ≤ resp.status_code) = false := decide_eq_false (by omega)
    simp only [throw_failed_responses, isSuccess_false (s := resp.status_code) hfail,
      hemp, hexact, parse_gate_of_resolved hct hctne, Option.isNone_none, e1, e3,
      Bool.true_and, Bool.false_and, Bool.and_false, Bool.and_true, Bool.and_self,
      Bool.false_or, Bool.or_false, Bool.or_self,
      Bool.false_eq_true, if_false, ite_false, if_true, ite_true]

/-! ## The claims -/

/-- C8: for every response with status in [200,300) and every error map,
failure resolution returns immediately without raising; the result is the
`noop` outcome for all error maps and all response bodies/headers, so
nothing of the map or body is consulted. -/
theorem success_status_failure_resolution_noop {α : Type} (resp : Response)
    (error_map : ErrorMap α) (h1 : 200 ≤ resp.status_code) (h2 : resp.status_code < 300) :
    throw_failed_responses resp error_map = .noop := by
  unfold throw_failed_responses
  rw [isSuccess_true h1 h2]
  rfl

/-- Witness for C8 at a concrete 200 response with a populated error map. -/
theorem success_status_failure_resolution_noop_witness :
    200 ≤ (200 : Nat) ∧ (200 : Nat) < 300 ∧
      throw_failed_responses ⟨200, [("Content-Type", "application/json")], "body"⟩
        ([("200", 1), ("4XX", 2)] : ErrorMap Nat) = .noop :=
  ⟨by decide, by decide,
    success_status_failure_resolution_noop _ _ (by decide) (by decide)⟩

/-- C6: for every status in [400,600), headers and body, failure
resolution with an empty error map raises the generic `APIError` carrying
exactly that status and those headers, and its message cites the
missing registration for that status code. -/
theorem empty_error_map_generic_api_error {α : Type} (status : Nat)
    (headers : List (String × String)) (body : String)
    (h1 : 400 ≤ status) (h2 : status < 600) :
    throw_failed_responses ⟨status, headers, body⟩ ([] : ErrorMap α)
      = .genericError (NO_ERROR_CLASS_MSG status) status headers ∧
    NO_ERROR_CLASS_MSG status
      = "The server returned an unexpected status code and no error class is registered"
          ++ " for this code " ++ toString status := by
  refine ⟨?_, rfl⟩
  unfold throw_failed_responses
  rw [show (Response.mk status headers body).status_code = status from rfl,
    isSuccess_false (by omega)]
  rfl

/-- Witness for C6 at a concrete 404 with no registered error classes. -/
theorem empty_error_map_generic_api_error_witness :
    400 ≤ (404 : Nat) ∧ (404 : Nat) < 600 ∧
      throw_failed_responses ⟨404, [("X-Trace", "t")], "ignored"⟩ ([] : ErrorMap Nat)
        = .genericError (NO_ERROR_CLASS_MSG 404) 404 [("X-Trace", "t")] :=
  ⟨by decide, by decide,
    (empty_error_map_generic_api_error 404 [("X-Trace", "t")] "ignored"
      (by decide) (by decide)).1⟩

/-- Lower-casing an upper-case Latin letter never yields a semicolon. -/
theorem ofNat_upper_ne_semicolon (n : Nat) (h1 : 65 ≤ n) (h2 : n ≤ 90) :
    Char.ofNat (n + 32) ≠ semicolon := by
  interval_cases n <;> decide

/-- `Char.toLower` maps a character to the semicolon exactly when it is
the semicolon (only basic Latin capitals move, and they move into the
lower-case letters). -/
theorem toLower_eq_semicolon_iff (c : Char) :
    Char.toLower c = semicolon ↔ c = semicolon := by
  simp only [Char.toLower]
  by_cases hb : c.toNat ≥ 65 ∧ c.toNat ≤ 90
  · rw [if_pos hb]
    constructor
    · intro h
      exact absurd h (ofNat_upper_ne_semicolon c.toNat hb.1 hb.2)
    · intro h
      subst h
      exact absurd hb.1 (by decide)
  · rw [if_neg hb]

/-- `takeWhile` up to the first semicolon commutes with lower-casing,
because lower-casing preserves being (or not being) a semicolon. -/
theorem takeWhile_semi_map_toLower (l : List Char) :
    (l.map Char.toLower).takeWhile (· ≠ semicolon)
      = (l.takeWhile (· ≠ semicolon)).map Char.toLower := by
  induction l with
  | nil => rfl
  | cons c rest ih =>
    simp only [List.map_cons, List.takeWhile_cons]
    by_cases hc : c = semicolon
    · subst hc
      have h1 : Char.toLower semicolon = semicolon := by decide
      simp [h1]
    · have h1 : Char.toLower c ≠ semicolon := fun h => hc ((toLower_eq_semicolon_iff c).mp h)
      simp [h1, hc]
      simpa using ih

/-- The first piece of the semicolon split is the prefix before the first
semicolon. -/
theorem splitSemi_head (l : List Char) :
    ∃ tl, splitSemi l = l.takeWhile (· ≠ semicolon) :: tl := by
  induction l with
  | nil => exact ⟨[], rfl⟩
  | cons c rest ih =>
    obtain ⟨tl, htl⟩ := ih
    by_cases hc : c = semicolon
    · refine ⟨splitSemi rest, ?_⟩
      subst hc
      simp [splitSemi, List.takeWhile_cons]
    · refine ⟨tl, ?_⟩
      simp [splitSemi, hc, htl, consHead, List.takeWhile_cons]

/-- C9: content-type resolution yields nothing when the `Content-Type`
header is missing, and otherwise the substring of the header value before
the first `;`, lower-cased - so parameter-bearing content types resolve to
the same codec key as their bare form. -/
theorem content_type_resolution_strips_parameters (r : Response) :
    (r.getHeader "content-type" = none → get_response_content_type r = none) ∧
    (∀ v : String, r.getHeader "content-type" = some v → v ≠ "" →
      get_response_content_type r
        = some (String.mk ((v.data.takeWhile (· ≠ semicolon)).map Char.toLower))) := by
  constructor
  · intro h
    simp [get_response_content_type, h]
  · intro v hv hne
    obtain ⟨tl, htl⟩ := splitSemi_head (pyLower v.data)
    simp only [pyLower] at htl
    rw [takeWhile_semi_map_toLower] at htl
    simp [get_response_content_type, pyLower, hv, hne, htl]

/-- Witness for C9: `"Application/JSON; odata.metadata=minimal"` resolves
to the codec key `"application/json"`. -/
theorem content_type_resolution_strips_parameters_witness :
    (⟨200, [("Content-Type", "Application/JSON; odata.metadata=minimal")], ""⟩ :
        Response).getHeader "content-type"
      = some "Application/JSON; odata.metadata=minimal" ∧
    get_response_content_type
        ⟨200, [("Content-Type", "Application/JSON; odata.metadata=minimal")], ""⟩
      = some "application/json" :=
  ⟨by decide,
    ((content_type_resolution_strips_parameters
        ⟨200, [("Content-Type", "Application/JSON; odata.metadata=minimal")], ""⟩).2
      "Application/JSON; odata.metadata=minimal" (by decide) (by decide)).trans
      (by decide)⟩

/-- C2 counterexample: a failed status outside [400,600) - here a 302 -
with a non-empty error map and no exact entry does not produce the generic
API error the claim requires; the outcome is materialization with no
factory. -/
theorem error_map_precedence_counterexample :
    throw_failed_responses ⟨302, [("Content-Type", "application/json")], "b"⟩
      ([("404", 1)] : ErrorMap Nat)
      = .errorMaterialize none "application/json" "b" 302
          [("Content-Type", "application/json")] ∧
    ThrowOutcome.errorMaterialize (none : Option Nat) "application/json" "b" 302
        [("Content-Type", "application/json")]
      ≠ .genericError (NO_ERROR_CLASS_MSG 302) 302 [("Content-Type", "application/json")] :=
  ⟨by decide, by decide⟩

/-- C2 amended: for every failed response, the error factory is selected
with precedence exact entry, then the `"4XX"`/`"5XX"` wildcard matching
the status's hundred-range, and the no-factory generic API error arises
exactly when the map is empty or the status lies in [400,600) with its
wildcard also missing; a failed status outside [400,600) with a non-empty
map and no exact entry instead materializes with no factory.  The
materialization conclusions hold when the response's content type
resolves non-empty - a falsy resolution makes `get_root_parse_node` raise
`DeserializationError` after the same factory selection. -/
theorem error_map_precedence_amended {α : Type} (resp : Response) (error_map : ErrorMap α)
    (hfail : ¬ (200 ≤ resp.status_code ∧ resp.status_code < 300)) :
    (∀ (f : α) (ct : String), error_map.lookup (toString resp.status_code) = some f →
      get_response_content_type resp = some ct → ct ≠ "" →
      throw_failed_responses resp error_map
        = .errorMaterialize (some f) ct resp.content resp.status_code resp.headers) ∧
    (∀ (f : α) (ct : String), error_map.lookup (toString resp.status_code) = none →
      400 ≤ resp.status_code → resp.status_code < 500 →
      error_map.lookup "4XX" = some f →
      get_response_content_type resp = some ct → ct ≠ "" →
      throw_failed_responses resp error_map
        = .errorMaterialize (some f) ct resp.content resp.status_code resp.headers) ∧
    (∀ (f : α) (ct : String), error_map.lookup (toString resp.status_code) = none →
      500 ≤ resp.status_code → resp.status_code < 600 →
      error_map.lookup "5XX" = some f →
      get_response_content_type resp = some ct → ct ≠ "" →
      throw_failed_responses resp error_map
        = .errorMaterialize (some f) ct resp.content resp.status_code resp.headers) ∧
    (error_map.lookup (toString resp.status_code) = none →
      400 ≤ resp.status_code → resp.status_code < 500 →
      error_map.lookup "4XX" = none →
      throw_failed_responses resp error_map
        = .genericError (NO_ERROR_CLASS_MSG resp.status_code) resp.status_code resp.headers) ∧
    (error_map.lookup (toString resp.status_code) = none →
      500 ≤ resp.status_code → resp.status_code < 600 →
      error_map.lookup "5XX" = none →
      throw_failed_responses resp error_map
        = .genericError (NO_ERROR_CLASS_MSG resp.status_code) resp.status_code resp.headers) ∧
    (∀ ct : String, error_map.lookup (toString resp.status_code) = none →
      ¬ (400 ≤ resp.status_code ∧ resp.status_code < 500) →
      ¬ (500 ≤ resp.status_code ∧ resp.status_code < 600) →
      error_map ≠ [] →
      get_response_content_type resp = some ct → ct ≠ "" →
      throw_failed_responses resp error_map
        = .errorMaterialize none ct resp.content resp.status_code resp.headers) :=
  ⟨fun _ _ hexact hct hctne => throw_exact_entry hfail hexact hct hctne,
    fun _ _ hexact h1 h2 h4 hct hctne => throw_4xx_entry hexact h1 h2 h4 hct hctne,
    fun _ _ hexact h1 h2 h5 hct hctne => throw_5xx_entry hexact h1 h2 h5 hct hctne,
    fun hexact h1 h2 h4 => throw_generic_4xx hexact h1 h2 h4,
    fun hexact h1 h2 h5 => throw_generic_5xx hexact h1 h2 h5,
    fun _ hexact h4 h5 hne hct hctne =>
      throw_none_factory hfail h4 h5 hne hexact hct hctne⟩

/-- Witness for C2 as amended: the spec's own examples - with
`{"404": F1, "4XX": F2}` a 404 selects `F1`, and with `{"4XX": F2}` a 403
selects `F2`. -/
theorem error_map_precedence_amended_witness :
    ¬ (200 ≤ (404 : Nat) ∧ (404 : Nat) < 300) ∧
    throw_failed_responses ⟨404, [("Content-Type", "application/json")], "b"⟩
      ([("404", 1), ("4XX", 2)] : ErrorMap Nat)
      = .errorMaterialize (some 1) "application/json" "b" 404
          [("Content-Type", "application/json")] ∧
    throw_failed_responses ⟨403, [("Content-Type", "application/json")], "b"⟩
      ([("4XX", 2)] : ErrorMap Nat)
      = .errorMaterialize (some 2) "application/json" "b" 403
          [("Content-Type", "application/json")] :=
  ⟨by decide,
    (error_map_precedence_amended ⟨404, [("Content-Type", "application/json")], "b"⟩
      [("404", 1), ("4XX", 2)] (by decide)).1 1 "application/json" (by decide) (by decide)
      (by decide),
    ((error_map_precedence_amended ⟨403, [("Content-Type", "application/json")], "b"⟩
      [("4XX", 2)] (by decide)).2).1 2 "application/json" (by decide) (by decide)
      (by decide) (by decide) (by decide) (by decide)⟩

/-- C10: a failed status outside both [400,500) and [500,600) - a 3xx for
example - with a non-empty error map holding no exact entry for it never
raises the generic no-registration error: the factory resolves to `none`
and the body (here with its content type resolving to a non-empty string,
the condition for `get_root_parse_node` not to raise first) is handed to
error materialization with that `none` factory. -/
theorem out_of_range_status_none_factory {α : Type} (resp : Response)
    (error_map : ErrorMap α) (ct : String)
    (hfail : ¬ (200 ≤ resp.status_code ∧ resp.status_code < 300))
    (h4 : ¬ (400 ≤ resp.status_code ∧ resp.status_code < 500))
    (h5 : ¬ (500 ≤ resp.status_code ∧ resp.status_code < 600))
    (hne : error_map ≠ [])
    (hexact : error_map.lookup (toString resp.status_code) = none)
    (hct : get_response_content_type resp = some ct) (hctne : ct ≠ "") :
    throw_failed_responses resp error_map
      = .errorMaterialize none ct resp.content resp.status_code resp.headers ∧
    ∀ (msg : String) (st : Nat) (hd : List (String × String)),
      throw_failed_responses resp error_map ≠ .genericError msg st hd := by
  have h := throw_none_factory hfail h4 h5 hne hexact hct hctne
  refine ⟨h, fun msg st hd hc => ?_⟩
  rw [h] at hc
  exact ThrowOutcome.noConfusion hc

/-- Witness for C10 at a 302 redirect with `{"404": F1}`. -/
theorem out_of_range_status_none_factory_witness :
    ([("404", 1)] : ErrorMap Nat) ≠ [] ∧
    throw_failed_responses ⟨302, [("Content-Type", "text/html")], "<a>"⟩
      ([("404", 1)] : ErrorMap Nat)
      = .errorMaterialize none "text/html" "<a>" 302 [("Content-Type", "text/html")] :=
  ⟨by decide,
    (out_of_range_status_none_factory ⟨302, [("Content-Type", "text/html")], "<a>"⟩
      [("404", 1)] "text/html" (by decide) (by decide) (by decide) (by decide)
      (by decide) (by decide) (by decide)).1⟩

/-- C4 (code evaluation): a null request info makes every send variant
fail with the `AttributeError` raised by `start_tracing_span` reading
`url_template` off `None`, not with the `REQUEST_IS_NULL` request error of
the explicit null check, which is unreachable. -/
theorem null_request_info_attribute_error {α γ : Type} (v : Variant)
    (transport : Nat → Response) (fuel : Nat) (error_map : ErrorMap α) :
    send_variant (γ := γ) v transport fuel none error_map = .attributeError ∧
    send_variant (γ := γ) v transport fuel none error_map ≠ .requestNullError := by
  refine ⟨rfl, ?_⟩
  intro h
  exact SendOutcome.noConfusion h

/-- C5: for every send variant without a response handler, a dispatched
response with status 204 makes the send return `None`: no deserialization
is attempted and the error map is never consulted, whatever they contain. -/
theorem no_content_204_returns_none {α γ : Type} (v : Variant)
    (transport : Nat → Response) (fuel : Nat) (ri : RequestInfo α γ)
    (error_map : ErrorMap α) (resp : Response) (log : List AuthContext)
    (hh : ri.response_handler = none)
    (hdisp : get_http_response_message transport fuel "" [] = .ok resp log)
    (h204 : resp.status_code = 204) :
    send_variant v transport fuel (some ri) error_map = .noneResult := by
  have hnoop : throw_failed_responses resp error_map = .noop :=
    success_status_failure_resolution_noop resp error_map (by omega) (by omega)
  unfold send_variant
  simp only [start_tracing_span, pyTruthyRequestInfo, Option.isSome_some, hdisp,
    get_response_handler, hh, hnoop]
  cases v <;> simp [variant_tail, should_return_none, h204]

/-- Witness for C5: a 204 carrying a body and a matching error map entry
still yields `None` through `send_async`. -/
theorem no_content_204_returns_none_witness :
    (⟨204, [("Content-Type", "application/json")], "stray"⟩ : Response).status_code = 204 ∧
    send_variant (α := Nat) (γ := Nat) .object
      (fun _ => ⟨204, [("Content-Type", "application/json")], "stray"⟩) 5
      (some ⟨some "{+baseurl}/x", none⟩) ([("204", 3), ("4XX", 4)] : ErrorMap Nat)
      = .noneResult :=
  ⟨by decide,
    no_content_204_returns_none .object _ 5 ⟨some "{+baseurl}/x", none⟩ _
      ⟨204, [("Content-Type", "application/json")], "stray"⟩ [[]]
      rfl (by decide) rfl⟩

/-- C7: for every send variant, when a response handler is present the
handler receives the raw dispatched response and the error map and its
result is returned verbatim; failure resolution and deserialization are
bypassed for every status, 500 included. -/
theorem response_handler_short_circuit {α γ : Type} (v : Variant)
    (transport : Nat → Response) (fuel : Nat) (ri : RequestInfo α γ)
    (handler : Response → ErrorMap α → γ) (error_map : ErrorMap α)
    (resp : Response) (log : List AuthContext)
    (hh : ri.response_handler = some handler)
    (hdisp : get_http_response_message transport fuel "" [] = .ok resp log) :
    send_variant v transport fuel (some ri) error_map = .handled (handler resp error_map) := by
  unfold send_variant
  simp [start_tracing_span, pyTruthyRequestInfo, hdisp, get_response_handler, hh]

/-- Witness for C7: a handler on a 500 response returns its own value and
nothing raises. -/
theorem response_handler_short_circuit_witness :
    (⟨some "{+baseurl}/x", some (fun r _ => r.status_code + 1)⟩ :
        RequestInfo Nat Nat).response_handler = some (fun r _ => r.status_code + 1) ∧
    send_variant .object (fun _ => ⟨500, [], "boom"⟩) 5
      (some ⟨some "{+baseurl}/x", some (fun r _ => r.status_code + 1)⟩)
      ([("5XX", 9)] : ErrorMap Nat)
      = .handled 501 :=
  ⟨rfl,
    response_handler_short_circuit .object _ 5 _ _ _ ⟨500, [], "boom"⟩ [[]] rfl (by decide)⟩

/-- C3 counterexample: a 401 whose `WWW-Authenticate` value carries a
non-Bearer scheme is not a `ClaimsParseError`; the response passes on
silently to failure resolution (here: the generic `APIError` of the empty
error map). -/
theorem claims_parse_error_counterexample :
    send_async (γ := Nat)
      (fun _ => ⟨401, [("WWW-Authenticate", "Basic realm=\"x\"")], ""⟩) 5
      (some ⟨none, none⟩) ([] : ErrorMap Nat)
      = .failed (.genericError (NO_ERROR_CLASS_MSG 401) 401
          [("WWW-Authenticate", "Basic realm=\"x\"")]) ∧
    send_async (γ := Nat)
      (fun _ => ⟨401, [("WWW-Authenticate", "Basic realm=\"x\"")], ""⟩) 5
      (some ⟨none, none⟩) ([] : ErrorMap Nat)
      ≠ .claimsParseError :=
  ⟨by decide, by decide⟩

/-- C3 amended: on a claims-free 401 with a truthy `WWW-Authenticate`
header, the claims parse error is raised exactly when the value starts
with the case-insensitive Bearer scheme but contains no `claims="..."`
match; a non-Bearer value is passed through unchanged to failure
resolution. -/
theorem claims_parse_error_amended (transport : Nat → Response) (fuel : Nat)
    (r : Response) (v : String)
    (ht : transport 0 = r) (h401 : r.status_code = 401)
    (hv : r.getHeader RESPONSE_AUTH_HEADER = some v) (hvne : v ≠ "") :
    (starts_with_bearer v = true → reSearchClaims v.data = none →
      get_http_response_message transport (fuel + 1) "" [] = .parseError [[]]) ∧
    (starts_with_bearer v = false →
      get_http_response_message transport (fuel + 1) "" [] = .ok r [[]]) := by
  have htr : headerTruthy r RESPONSE_AUTH_HEADER = true := by
    simp [headerTruthy, hv, hvne]
  have step1 : get_http_response_message transport (fuel + 1) "" []
      = retry_cae_response_if_required (transport 0) "" [[]]
          (get_http_response_message transport fuel) := rfl
  constructor
  · intro hb hsearch
    rw [step1, ht]
    unfold retry_cae_response_if_required
    rw [if_pos ⟨h401, rfl, htr⟩]
    simp only [hv, Option.getD_some, hb, if_true, ite_true, hsearch]
  · intro hb
    rw [step1, ht]
    unfold retry_cae_response_if_required
    rw [if_pos ⟨h401, rfl, htr⟩]
    simp only [hv, Option.getD_some, hb, Bool.false_eq_true, if_false, ite_false]

/-- Witness for C3 as amended: a Bearer challenge with no claims
component raises the parse error. -/
theorem claims_parse_error_amended_witness :
    starts_with_bearer "Bearer realm=\"x\"" = true ∧
    reSearchClaims ("Bearer realm=\"x\"").data = none ∧
    get_http_response_message
      (fun _ => ⟨401, [("WWW-Authenticate", "Bearer realm=\"x\"")], ""⟩) 3 "" []
      = .parseError [[]] :=
  ⟨by decide, by decide,
    (claims_parse_error_amended
        (fun _ => ⟨401, [("WWW-Authenticate", "Bearer realm=\"x\"")], ""⟩) 2
        ⟨401, [("WWW-Authenticate", "Bearer realm=\"x\"")], ""⟩ "Bearer realm=\"x\""
        rfl rfl (by decide) (by decide)).1
      (by decide) (by decide)⟩

/-- C1 counterexample: for the challenge `Bearer claims="abc"` the
adapter's second authentication context carries `"abc\""` - the re-split
of the regex match keeps the closing quote - not the claims component's
value `"abc"` the claim promises. -/
theorem cae_retry_claims_value_counterexample :
    get_http_response_message
      (fun i => if i = 0 then ⟨401, [("WWW-Authenticate", "Bearer claims=\"abc\"")], ""⟩
                else ⟨200, [], "ok"⟩) 5 "" []
      = .ok ⟨200, [], "ok"⟩ [[], [("claims", "abc\"")]] ∧
    ("abc\"" : String) ≠ "abc" :=
  ⟨by decide, by decide⟩

/-- C1 amended: a 401 on a claims-free attempt whose Bearer challenge
yields a non-empty extracted claims string `w` (the piece after the first
`="` of the regex match, i.e. the claims value with its closing quote
attached, or truncated at an inner `="`) triggers exactly one further
authenticate+materialize+dispatch cycle with context `{"claims": w}`, and
the second response is returned whatever it is - a second 401 included. -/
theorem cae_retry_exactly_once_with_split_claims (transport : Nat → Response)
    (fuel : Nat) (r1 : Response) (v w : String)
    (ht : transport 0 = r1) (h401 : r1.status_code = 401)
    (hv : r1.getHeader RESPONSE_AUTH_HEADER = some v) (hvne : v ≠ "")
    (hb : starts_with_bearer v = true)
    (hw : extract_response_claims v = some w) (hwne : w ≠ "") :
    get_http_response_message transport (fuel + 2) "" []
      = .ok (transport 1) [[], [(CLAIMS_KEY, w)]] := by
  have htr : headerTruthy r1 RESPONSE_AUTH_HEADER = true := by
    simp [headerTruthy, hv, hvne]
  obtain ⟨m, hm, hmw⟩ : ∃ m, reSearchClaims v.data = some m ∧
      String.mk ((splitEqQuote m).getD 1 []) = w := by
    unfold extract_response_claims at hw
    cases hsearch : reSearchClaims v.data with
    | none => rw [hsearch] at hw; exact absurd hw (by simp)
    | some m =>
      rw [hsearch] at hw
      exact ⟨m, rfl, by injection hw⟩
  have step1 : get_http_response_message transport (fuel + 2) "" []
      = retry_cae_response_if_required (transport 0) "" [[]]
          (get_http_response_message transport (fuel + 1)) := rfl
  have step2 : retry_cae_response_if_required (transport 0) "" [[]]
      (get_http_response_message transport (fuel + 1))
      = get_http_response_message transport (fuel + 1) w [[]] := by
    rw [ht]
    unfold retry_cae_response_if_required
    rw [if_pos ⟨h401, rfl, htr⟩]
    simp only [hv, Option.getD_some, hb, if_true, ite_true, hm, hmw]
  have step3 : get_http_response_message transport (fuel + 1) w [[]]
      = .ok (transport 1) [[], [(CLAIMS_KEY, w)]] := by
    have hctx : (if w = "" then ([] : AuthContext) else [(CLAIMS_KEY, w)])
        = [(CLAIMS_KEY, w)] := if_neg hwne
    show retry_cae_response_if_required (transport [[]].length) w
        ([[]] ++ [if w = "" then [] else [(CLAIMS_KEY, w)]])
        (get_http_response_message transport fuel)
      = .ok (transport 1) [[], [(CLAIMS_KEY, w)]]
    rw [hctx]
    unfold retry_cae_response_if_required
    rw [if_neg (fun hcon => hwne hcon.2.1)]
    rfl
  rw [step1, step2, step3]

/-- Witness for C1 as amended: the challenge `Bearer claims="xy"` yields
the context value `xy"`, the cycle re-runs exactly once, and the second
response - itself a 401 carrying a fresh challenge - is returned without
another retry. -/
theorem cae_retry_exactly_once_with_split_claims_witness :
    extract_response_claims "Bearer claims=\"xy\"" = some "xy\"" ∧
    ("xy\"" : String) ≠ "" ∧
    get_http_response_message
      (fun i => if i = 0 then ⟨401, [("WWW-Authenticate", "Bearer claims=\"xy\"")], ""⟩
                else ⟨401, [("WWW-Authenticate", "Bearer claims=\"zz\"")], "second"⟩)
      4 "" []
      = .ok ⟨401, [("WWW-Authenticate", "Bearer claims=\"zz\"")], "second"⟩
          [[], [(CLAIMS_KEY, "xy\"")]] :=
  ⟨by decide, by decide,
    (cae_retry_exactly_once_with_split_claims
        (fun i => if i = 0 then ⟨401, [("WWW-Authenticate", "Bearer claims=\"xy\"")], ""⟩
                  else ⟨401, [("WWW-Authenticate", "Bearer claims=\"zz\"")], "second"⟩)
        2 ⟨401, [("WWW-Authenticate", "Bearer claims=\"xy\"")], ""⟩
        "Bearer claims=\"xy\"" "xy\""
        rfl rfl (by decide) (by decide) (by decide) (by decide) (by decide)).trans
      (by decide)⟩

end KiotaHttp
